import Mathlib

/-!
Verification development for the finwise backend's deterministic
financial-reasoning pipeline (auditor → strategist → catalyst), its
autonomous-coach guardrails and the static fund catalog.

Modelling conventions (shallow embedding of the Python sources):
* Python floats are modelled as exact rationals (`ℚ`);
  `round(x, 2)` is modelled as round-half-to-even at 2 decimal places
  (`round2`), matching Python's documented rounding of `round`.
* `datetime.date` values are modelled as `Date` records compared
  lexicographically, which is exactly how `datetime` comparison behaves
  once both operands sit at midnight (`datetime.combine(d, min.time())`).
* Python dicts that the code only reads through fixed keys are modelled
  as structures; an optional/possibly-missing value is an `Option`.
-/

/-- A calendar date `(year, month, day)`; `datetime` comparison of two
midnight datetimes is lexicographic comparison of these fields. -/
structure Date where
  year : Int
  month : Int
  day : Int
deriving DecidableEq, Repr

/-- `datetime.combine(a, min.time()) <= datetime.combine(b, min.time())`:
lexicographic order on (year, month, day). -/
def Date.leb (a b : Date) : Bool :=
  decide (a.year < b.year ∨ (a.year = b.year ∧
    (a.month < b.month ∨ (a.month = b.month ∧ a.day ≤ b.day))))

/-- Strict date order, derived from `Date.leb` by totality. -/
def Date.ltb (a b : Date) : Bool := !(Date.leb b a)

/-- `app.models.transaction.Transaction` (Pydantic model): id, user_id,
amount, type ("income" | "expense"), optional tag, optional category, date. -/
structure Transaction where
  id : Option Int
  user_id : Int
  amount : ℚ
  type : String
  tag : Option String
  category : Option String
  date : Date
deriving DecidableEq, Repr

/-- The `FinancialReport` dictionary returned by `audit_finances`. -/
structure Report where
  monthly_income : ℚ
  monthly_expenses : ℚ
  burn_rate : ℚ
  leaks : List String
  saving_potential : ℚ
deriving DecidableEq, Repr

/-- Round-half-to-even to an integer, the rounding Python's `round`
documents (ties go to the even neighbour). -/
def round_half_even (x : ℚ) : Int :=
  let f : Int := x.floor
  let r : ℚ := x - (f : ℚ)
  if r < 1/2 then f
  else if 1/2 < r then f + 1
  else if f % 2 = 0 then f else f + 1

/-- Python's `round(x, 2)`: round half to even at two decimal places. -/
def round2 (x : ℚ) : ℚ := ((round_half_even (x * 100) : ℚ)) / 100

/-- `datetime(now.year, now.month, 1)` in `audit_finances`. -/
def month_start (now : Date) : Date := ⟨now.year, now.month, 1⟩

/-- `auditor.py` lines 35-38: the transactions whose (midnight) datetime is
`>= current_month_start`.  Note the source has no upper bound on the date. -/
def monthly_transactions (now : Date) (transactions : List Transaction) :
    List Transaction :=
  transactions.filter (fun t => Date.leb (month_start now) t.date)

/-- `auditor.py` lines 41-44: sum of amounts of the filtered transactions
with `type == "income"`. -/
def monthly_income_sum (now : Date) (transactions : List Transaction) : ℚ :=
  (((monthly_transactions now transactions).filter
      (fun t => decide (t.type = "income"))).map Transaction.amount).sum

/-- `auditor.py` lines 46-49: sum of amounts of the filtered transactions
with `type == "expense"`. -/
def monthly_expenses_sum (now : Date) (transactions : List Transaction) : ℚ :=
  (((monthly_transactions now transactions).filter
      (fun t => decide (t.type = "expense"))).map Transaction.amount).sum

/-- Python truthiness of the optional `tag` field: `None` and the empty
string are falsy, any other string is truthy. -/
def tag_truthy : Option String → Bool
  | none => false
  | some s => decide (s ≠ "")

/-- Insertion-ordered key set of a Python dict built by repeated
`d[k] = d.get(k, 0) + v`: each key in order of first appearance. -/
def dedupKeys (l : List String) : List String :=
  l.foldl (fun acc tag => if tag ∈ acc then acc else acc ++ [tag]) []

/-- The keys of `tag_totals` in `auditor.py` lines 63-66: tags of
current-month expense transactions with a truthy tag, in order of first
appearance. -/
def leak_tag_keys (now : Date) (transactions : List Transaction) :
    List String :=
  dedupKeys (((monthly_transactions now transactions).filter
      (fun t => decide (t.type = "expense") && tag_truthy t.tag)).filterMap
    Transaction.tag)

/-- `tag_totals[tag]` in `auditor.py`: the summed amount of current-month
expense transactions carrying exactly this tag. -/
def tag_total (now : Date) (transactions : List Transaction) (tag : String) :
    ℚ :=
  (((monthly_transactions now transactions).filter
      (fun t => decide (t.type = "expense" ∧ t.tag = some tag))).map
    Transaction.amount).sum

/-- `auditor.py` lines 51-58: burn rate before the final rounding. -/
def burn_rate_raw (now : Date) (transactions : List Transaction) : ℚ :=
  if 0 < monthly_income_sum now transactions then
    monthly_expenses_sum now transactions /
      monthly_income_sum now transactions * 100
  else if 0 < monthly_expenses_sum now transactions then 100
  else 0

/-- `auditor.py` lines 60-72: tags whose total exceeds 15% of the monthly
expenses, computed only when monthly expenses are positive. -/
def leaks_list (now : Date) (transactions : List Transaction) : List String :=
  if 0 < monthly_expenses_sum now transactions then
    (leak_tag_keys now transactions).filter
      (fun tag => decide (monthly_expenses_sum now transactions * (15/100) <
        tag_total now transactions tag))
  else []

/-- `audit_finances` (`app/services/auditor.py`): empty input returns the
all-zero report, otherwise the report is assembled from the current-month
sums, with the three monetary fields and the burn rate rounded to two
decimal places on return. -/
def audit_finances (now : Date) (transactions : List Transaction) : Report :=
  if transactions.isEmpty then
    { monthly_income := 0, monthly_expenses := 0, burn_rate := 0,
      leaks := [], saving_potential := 0 }
  else
    { monthly_income := round2 (monthly_income_sum now transactions),
      monthly_expenses := round2 (monthly_expenses_sum now transactions),
      burn_rate := round2 (burn_rate_raw now transactions),
      leaks := leaks_list now transactions,
      saving_potential := round2 (monthly_income_sum now transactions -
        monthly_expenses_sum now transactions) }

/-- The `SafetyNetPlan` dictionary returned by `create_safety_plan`
(`allocation` flattened into its two integer percentage entries). -/
structure SafetyNetPlan where
  emergency_fund_goal : ℚ
  months_to_reach_goal : Int
  monthly_savings_target : ℚ
  allocation_liquid : Int
  allocation_locked : Int
deriving DecidableEq, Repr

/-- Python's `int()` on a float/rational: truncation toward zero. -/
def int_of (q : ℚ) : Int := if 0 ≤ q then q.floor else q.ceil

/-- `create_safety_plan` (`app/services/strategist.py`): emergency fund goal
is 3 × monthly expenses, savings target is `max(saving_potential, 0)`,
months to reach the goal is `max(1, int(goal / target))` when both target
and goal are positive and 0 otherwise (the source's `elif goal > 0` and
`else` branches both yield 0), allocation is a fixed table keyed by
risk profile with medium as the default branch. -/
def create_safety_plan (report : Report) (risk_profile : String) :
    SafetyNetPlan :=
  { emergency_fund_goal := round2 (report.monthly_expenses * 3),
    months_to_reach_goal :=
      if 0 < max report.saving_potential 0 ∧ 0 < report.monthly_expenses * 3
      then max 1 (int_of (report.monthly_expenses * 3 /
        max report.saving_potential 0))
      else 0,
    monthly_savings_target := round2 (max report.saving_potential 0),
    allocation_liquid :=
      if risk_profile = "low" then 30
      else if risk_profile = "high" then 70 else 50,
    allocation_locked :=
      if risk_profile = "low" then 70
      else if risk_profile = "high" then 30 else 50 }

/-- The `portfolio` dictionary of `propose_portfolio`. -/
structure Portfolio where
  equity : Int
  debt : Int
  gold : Int
  cash : Int
deriving DecidableEq, Repr

/-- The `InvestmentPortfolioProposal` dictionary of `propose_portfolio`. -/
structure InvestmentProposal where
  investable_amount : ℚ
  portfolio : Portfolio
  scenario_notes : List String
deriving DecidableEq, Repr

/-- `catalyst.py` lines 26-30: monthly contribution to the emergency fund. -/
def emergency_fund_monthly_contribution (plan : SafetyNetPlan) : ℚ :=
  if 0 < plan.months_to_reach_goal ∧ 0 < plan.emergency_fund_goal then
    plan.emergency_fund_goal / (plan.months_to_reach_goal : ℚ)
  else 0

/-- `propose_portfolio` (`app/services/catalyst.py`): investable amount is
what remains of the savings target after the emergency-fund contribution
(clamped at 0, rounded to 2 decimals on return); the portfolio and the
scenario notes are fixed lookup tables keyed by risk profile, with medium
as the default branch. -/
def propose_portfolio (plan : SafetyNetPlan) (risk_profile : String) :
    InvestmentProposal :=
  { investable_amount := round2 (max 0 (plan.monthly_savings_target -
      emergency_fund_monthly_contribution plan)),
    portfolio :=
      if risk_profile = "low" then
        { equity := 30, debt := 50, gold := 10, cash := 10 }
      else if risk_profile = "high" then
        { equity := 70, debt := 15, gold := 10, cash := 5 }
      else
        { equity := 55, debt := 30, gold := 10, cash := 5 },
    scenario_notes :=
      if risk_profile = "low" then
        ["Conservative portfolio suitable for low-risk tolerance",
         "Focus on capital preservation with steady returns",
         "Higher allocation to debt instruments for stability"]
      else if risk_profile = "high" then
        ["Aggressive portfolio for high-risk tolerance",
         "Higher equity exposure for long-term growth",
         "Lower cash allocation to maximize returns"]
      else
        ["Balanced portfolio for moderate risk tolerance",
         "Diversified allocation across asset classes",
         "Good balance between growth and stability"] }

/-- A fund record of `FUNDS_DATABASE` (`app/services/fund_suggestions.py`);
`format_fund_suggestions` reproduces exactly these six keys. -/
structure Fund where
  name : String
  type : String
  category : String
  risk_level : String
  min_investment : ℚ
  description : String
deriving DecidableEq, Repr

/-- The static `FUNDS_DATABASE` table of `app/services/fund_suggestions.py`. -/
def FUNDS_DATABASE : List Fund :=
  [ { name := "SBI Bluechip Fund", type := "equity", category := "Large Cap",
      risk_level := "high", min_investment := 5000,
      description := "Large cap equity fund with consistent returns" },
    { name := "HDFC Equity Fund", type := "equity", category := "Multi Cap",
      risk_level := "high", min_investment := 5000,
      description := "Multi cap fund for diversified equity exposure" },
    { name := "ICICI Prudential Bluechip Fund", type := "equity",
      category := "Large Cap", risk_level := "high", min_investment := 5000,
      description := "Large cap fund with strong track record" },
    { name := "Axis Bluechip Fund", type := "equity", category := "Large Cap",
      risk_level := "high", min_investment := 5000,
      description := "Large cap equity fund" },
    { name := "Mirae Asset Large Cap Fund", type := "equity",
      category := "Large Cap", risk_level := "high", min_investment := 5000,
      description := "Large cap fund with good returns" },
    { name := "HDFC Debt Fund", type := "debt", category := "Corporate Bond",
      risk_level := "low", min_investment := 5000,
      description := "Low risk debt fund for stable returns" },
    { name := "ICICI Prudential Corporate Bond Fund", type := "debt",
      category := "Corporate Bond", risk_level := "low",
      min_investment := 5000,
      description := "Corporate bond fund with low risk" },
    { name := "SBI Magnum Gilt Fund", type := "debt", category := "Gilt",
      risk_level := "low", min_investment := 5000,
      description := "Government securities fund" },
    { name := "HDFC Balanced Advantage Fund", type := "hybrid",
      category := "Balanced", risk_level := "medium", min_investment := 5000,
      description := "Balanced fund with equity and debt mix" },
    { name := "ICICI Prudential Balanced Advantage Fund", type := "hybrid",
      category := "Balanced", risk_level := "medium", min_investment := 5000,
      description := "Dynamic asset allocation fund" },
    { name := "SBI Gold Fund", type := "gold", category := "Gold ETF",
      risk_level := "medium", min_investment := 5000,
      description := "Gold ETF for portfolio diversification" },
    { name := "HDFC Gold Fund", type := "gold", category := "Gold ETF",
      risk_level := "medium", min_investment := 5000,
      description := "Gold investment fund" } ]

/-- `fund_suggestions.py` lines 122-125: keep funds whose minimum
investment fits the investable amount; an amount of exactly 0 disables the
filter entirely. -/
def available_funds (investable_amount : ℚ) : List Fund :=
  FUNDS_DATABASE.filter (fun fund =>
    decide (investable_amount = 0 ∨ fund.min_investment ≤ investable_amount))

/-- `get_funds_by_risk_profile` (`app/services/fund_suggestions.py`):
low-risk prefers debt/hybrid/low-risk funds plus at most one equity fund,
high-risk prefers equity/high-risk funds plus at most one debt fund, any
other profile takes the whole filtered set; the result is truncated to 6. -/
def get_funds_by_risk_profile (risk_profile : String)
    (investable_amount : ℚ) : List Fund :=
  (if risk_profile = "low" then
    (available_funds investable_amount).filter (fun f =>
      decide (f.type = "debt" ∨ f.type = "hybrid" ∨ f.risk_level = "low")) ++
    ((available_funds investable_amount).filter (fun f =>
      decide (f.type = "equity"))).take 1
  else if risk_profile = "high" then
    (available_funds investable_amount).filter (fun f =>
      decide (f.type = "equity" ∨ f.risk_level = "high")) ++
    ((available_funds investable_amount).filter (fun f =>
      decide (f.type = "debt"))).take 1
  else available_funds investable_amount).take 6

/-- `format_fund_suggestions` (`app/services/fund_suggestions.py`): rebuild
each record with the same six keys the catalog rows carry. -/
def format_fund_suggestions (funds : List Fund) : List Fund :=
  funds.map (fun fund =>
    { name := fund.name, type := fund.type, category := fund.category,
      risk_level := fund.risk_level, min_investment := fund.min_investment,
      description := fund.description })

/-- A historical transaction dict as seen by `analyze_and_coach`
(`all_transactions` entries): each field read through `.get`, so each is
optional; a date that is missing or unparsable is `none` (the source skips
such entries when summing recent tag spending). -/
structure CoachTxn where
  type : Option String
  tag : Option String
  amount : ℚ
  date : Option Date
deriving DecidableEq, Repr

/-- The current extracted transaction (`transaction_data` in
`analyze_and_coach`): `.get("income", 0)`, `.get("expense", 0)` and
`.get("tags", [])`.  The `date` entry only feeds the outbound prompt. -/
structure TransactionData where
  income : ℚ
  expense : ℚ
  tags : List String
deriving DecidableEq, Repr

/-- The user dict: only `risk_profile` influences the returned value
(`name` and `goals` only feed the outbound prompt); `.get` defaults a
missing profile to "medium". -/
structure UserProfile where
  risk_profile : Option String
deriving DecidableEq, Repr

/-- The parsed JSON object an external reasoning collaborator returns,
after the `.get` defaulting the source applies to each key
(`should_intervene` defaults to False, `reasoning` and `spending_insight`
to the empty string, `regret_message` may be null). -/
structure CoachingResult where
  should_intervene : Bool
  regret_message : Option String
  reasoning : String
  spending_insight : String
deriving DecidableEq, Repr

/-- The dictionary `analyze_and_coach` returns.  The early-failure return
carries no `spending_insight` key, so that field is an `Option`. -/
structure CoachingResponse where
  should_intervene : Bool
  regret_message : Option String
  fund_suggestions : List Fund
  reasoning : String
  spending_insight : Option String
deriving DecidableEq, Repr

/-- `", ".join(current_tags) if current_tags else "expense"`. -/
def current_tag_of (tags : List String) : String :=
  if tags.isEmpty then "expense" else String.intercalate ", " tags

/-- `autonomous_coach.py` lines 126-133: insertion-ordered keys of the
`expense_tags` dict over the recent (≤ 20) transactions; a missing tag is
keyed "unknown". -/
def expense_tag_keys (recent : List CoachTxn) : List String :=
  dedupKeys ((recent.filter (fun t => decide (t.type = some "expense"))).map
    (fun t => t.tag.getD "unknown"))

/-- `autonomous_coach.py` lines 143-174: total spend over the recent
transactions that are expenses on exactly the current tag and whose parsed
date is on or after `week_ago` (entries without a parsable date are
skipped).  `week_ago` stands for `datetime.now() - timedelta(days=7)`,
passed as the first calendar date the window admits. -/
def recent_tag_spending (recent : List CoachTxn) (current_tag : String)
    (week_ago : Date) : ℚ :=
  recent.foldl (fun s t =>
    match t.date with
    | none => s
    | some d =>
      if t.type = some "expense" ∧ t.tag = some current_tag ∧
          Date.leb week_ago d then s + t.amount
      else s) 0

/-- `autonomous_coach.py` lines 272-295: the investable amount derived
from the current transaction and the recent same-tag spending, the
guarded fund-suggestion computation, and the assembled response. -/
def coaching_response (r : CoachingResult) (risk_profile : String)
    (current_income current_expense : ℚ) (spend : ℚ) (tag_in_keys : Bool) :
    CoachingResponse :=
  { should_intervene := r.should_intervene,
    regret_message := r.regret_message,
    fund_suggestions :=
      if r.should_intervene then
        if 1000 ≤ (if 0 < spend ∧ tag_in_keys = true then
            max (if 0 < current_income then
              max 0 (current_income - current_expense) else 0) spend
          else (if 0 < current_income then
            max 0 (current_income - current_expense) else 0)) then
          format_fund_suggestions ((get_funds_by_risk_profile risk_profile
            (if 0 < spend ∧ tag_in_keys = true then
              max (if 0 < current_income then
                max 0 (current_income - current_expense) else 0) spend
            else (if 0 < current_income then
              max 0 (current_income - current_expense) else 0))).take 2)
        else []
      else [],
    reasoning := r.reasoning,
    spending_insight := some r.spending_insight }

/-- `analyze_and_coach` (`app/services/autonomous_coach.py`): the primary
collaborator result (`_call_gemini_for_coaching`, `none` covering the
source's unavailability and every swallowed exception) is used when
present; otherwise the fallback (`_call_ollama_for_coaching`,
`Except.error` covering an unreachable endpoint or unparsable output)
is tried, and if it too fails the silent default response is returned.
Language detection and prompt construction only shape the outbound prompt
string and are omitted, as is the unused `recent_tag_count`. -/
def analyze_and_coach (gemini_result : Option CoachingResult)
    (ollama_result : Except String CoachingResult)
    (transaction_data : TransactionData) (user : UserProfile)
    (all_transactions : List CoachTxn) (week_ago : Date) :
    CoachingResponse :=
  match gemini_result with
  | some r =>
    coaching_response r (user.risk_profile.getD "medium")
      transaction_data.income transaction_data.expense
      (recent_tag_spending (all_transactions.take 20)
        (current_tag_of transaction_data.tags) week_ago)
      ((expense_tag_keys (all_transactions.take 20)).contains
        (current_tag_of transaction_data.tags))
  | none =>
    match ollama_result with
    | Except.ok r =>
      coaching_response r (user.risk_profile.getD "medium")
        transaction_data.income transaction_data.expense
        (recent_tag_spending (all_transactions.take 20)
          (current_tag_of transaction_data.tags) week_ago)
        ((expense_tag_keys (all_transactions.take 20)).contains
          (current_tag_of transaction_data.tags))
    | Except.error e =>
      { should_intervene := false, regret_message := none,
        fund_suggestions := [],
        reasoning := "Coaching analysis unavailable: " ++ e,
        spending_insight := none }

/-! ### Concrete inputs
Fixed inputs used by scenario conjuncts, counterexamples and witnesses;
`spec_now` stands for the "now" of the spec's worked scenarios. -/

def spec_now : Date := ⟨2026, 10, 12⟩

/-- The spec's worked auditor scenario: income 5000 and a 2000 "groceries"
expense, both dated today. -/
def grocery_scenario : List Transaction :=
  [ { id := none, user_id := 1, amount := 5000, type := "income",
      tag := none, category := none, date := spec_now },
    { id := none, user_id := 1, amount := 2000, type := "expense",
      tag := some "groceries", category := none, date := spec_now } ]

/-- Sub-cent amounts (₹0.006 income, ₹0.004 expense) on which the final
2-decimal rounding breaks exact field identities. -/
def subcent_transactions : List Transaction :=
  [ { id := none, user_id := 1, amount := 3/500, type := "income",
      tag := none, category := none, date := spec_now },
    { id := none, user_id := 1, amount := 1/250, type := "expense",
      tag := some "misc", category := none, date := spec_now } ]

/-- A single expense dated in the month before `spec_now`. -/
def september_rent : List Transaction :=
  [ { id := none, user_id := 1, amount := 750, type := "expense",
      tag := some "rent", category := none, date := ⟨2026, 9, 30⟩ } ]

/-- A simple current-month history with positive income. -/
def burn_rate_case : List Transaction :=
  [ { id := none, user_id := 1, amount := 200, type := "income",
      tag := none, category := none, date := spec_now },
    { id := none, user_id := 1, amount := 50, type := "expense",
      tag := some "snacks", category := none, date := spec_now } ]

/-! ### General lemmas about the embedded primitives -/

/-- Batteries' computable `Rat.floor` agrees with `Int.floor`. -/
theorem rat_floor_eq (q : ℚ) : q.floor = ⌊q⌋ := by
  rw [Rat.floor_def, Rat.floor_def']

/-- Rounding an integer value to two decimals changes nothing. -/
theorem round2_int (n : ℤ) : round2 ((n : ℚ)) = (n : ℚ) := by
  have h100 : ((n : ℚ)) * 100 = ((100 * n : ℤ) : ℚ) := by push_cast; ring
  have hf : ((100 * n : ℤ) : ℚ).floor = 100 * n := by
    rw [rat_floor_eq]; exact Int.floor_intCast _
  rw [round2, h100]
  simp only [round_half_even, hf, sub_self]
  norm_num

/-- Rounding a whole number of cents to two decimals changes nothing. -/
theorem round2_cents (n : ℤ) : round2 ((n : ℚ) / 100) = (n : ℚ) / 100 := by
  have h100 : ((n : ℚ)) / 100 * 100 = ((n : ℤ) : ℚ) := by ring
  have hf : ((n : ℤ) : ℚ).floor = n := by
    rw [rat_floor_eq]; exact Int.floor_intCast _
  rw [round2, h100]
  simp only [round_half_even, hf, sub_self]
  norm_num

theorem round2_zero : round2 0 = 0 := by
  simpa using round2_int 0

theorem round2_hundred : round2 100 = 100 := by
  simpa using round2_int 100

theorem mem_dedupKeys_aux (l : List String) (acc : List String) (x : String) :
    x ∈ l.foldl (fun acc tag => if tag ∈ acc then acc else acc ++ [tag]) acc ↔
      x ∈ acc ∨ x ∈ l := by
  induction l generalizing acc with
  | nil => simp
  | cons a l ih =>
    rw [List.foldl_cons, ih]
    by_cases h : a ∈ acc
    · rw [if_pos h]
      constructor
      · rintro (hx | hx)
        · exact Or.inl hx
        · exact Or.inr (List.mem_cons_of_mem a hx)
      · rintro (hx | hx)
        · exact Or.inl hx
        · rcases List.mem_cons.mp hx with rfl | hx
          · exact Or.inl h
          · exact Or.inr hx
    · rw [if_neg h]
      constructor
      · rintro (hx | hx)
        · rcases List.mem_append.mp hx with hx | hx
          · exact Or.inl hx
          · exact Or.inr (List.mem_cons.mpr
              (Or.inl (List.mem_singleton.mp hx)))
        · exact Or.inr (List.mem_cons_of_mem a hx)
      · rintro (hx | hx)
        · exact Or.inl (List.mem_append.mpr (Or.inl hx))
        · rcases List.mem_cons.mp hx with rfl | hx
          · exact Or.inl (List.mem_append.mpr
              (Or.inr (List.mem_singleton.mpr rfl)))
          · exact Or.inr hx

/-- `dedupKeys` keeps exactly the members of the original list. -/
theorem mem_dedupKeys (l : List String) (x : String) :
    x ∈ dedupKeys l ↔ x ∈ l := by
  rw [dedupKeys, mem_dedupKeys_aux]
  simp

/-- A sum of whole-cent rationals is a whole number of cents. -/
theorem sum_cents (l : List ℚ) (h : ∀ x ∈ l, ∃ n : ℤ, x = (n : ℚ) / 100) :
    ∃ n : ℤ, l.sum = (n : ℚ) / 100 := by
  induction l with
  | nil => exact ⟨0, by norm_num⟩
  | cons a l ih =>
    obtain ⟨m, hm⟩ := h a (List.mem_cons_self a l)
    obtain ⟨n, hn⟩ := ih (fun x hx => h x (List.mem_cons_of_mem a hx))
    refine ⟨m + n, ?_⟩
    rw [List.sum_cons, hm, hn]
    push_cast
    ring

/-- Membership in the leak-candidate key list, spelled out. -/
theorem mem_leak_tag_keys (now : Date) (ts : List Transaction) (s : String) :
    s ∈ leak_tag_keys now ts ↔
      ∃ t ∈ monthly_transactions now ts,
        t.type = "expense" ∧ t.tag = some s ∧ s ≠ "" := by
  rw [leak_tag_keys, mem_dedupKeys, List.mem_filterMap]
  constructor
  · rintro ⟨t, ht, htag⟩
    obtain ⟨h1, h2⟩ := List.mem_filter.mp ht
    simp only [Bool.and_eq_true] at h2
    obtain ⟨hty, htru⟩ := h2
    refine ⟨t, h1, of_decide_eq_true hty, htag, ?_⟩
    rw [htag] at htru
    exact of_decide_eq_true htru
  · rintro ⟨t, ht, hty, htag, hs⟩
    refine ⟨t, List.mem_filter.mpr ⟨ht, ?_⟩, htag⟩
    rw [Bool.and_eq_true, htag]
    exact ⟨decide_eq_true hty, decide_eq_true hs⟩

/-- A positive tag total exhibits a current-month expense transaction
carrying that tag. -/
theorem tag_total_pos_exists (now : Date) (ts : List Transaction) (s : String)
    (h : 0 < tag_total now ts s) :
    ∃ t ∈ monthly_transactions now ts,
      t.type = "expense" ∧ t.tag = some s := by
  by_contra hn
  push_neg at hn
  have hnil : (monthly_transactions now ts).filter
      (fun t => decide (t.type = "expense" ∧ t.tag = some s)) = [] := by
    rw [List.filter_eq_nil_iff]
    intro t ht
    simp only [decide_eq_true_eq]
    intro hcon
    exact absurd hcon.2 (hn t ht hcon.1)
  rw [tag_total, hnil] at h
  simp at h

/-! ### Claim theorems -/

/-- Claim C9: whenever the primary reasoning collaborator yields nothing
and the fallback fails, `analyze_and_coach` returns the silent default —
`should_intervene = false`, no regret message, no fund suggestions — as a
value, never an exception (the embedded function is total). -/
theorem coach_failure_silent_default (transaction_data : TransactionData)
    (user : UserProfile) (all_transactions : List CoachTxn) (week_ago : Date)
    (e : String) :
    analyze_and_coach none (Except.error e) transaction_data user
      all_transactions week_ago =
      { should_intervene := false, regret_message := none,
        fund_suggestions := [],
        reasoning := "Coaching analysis unavailable: " ++ e,
        spending_insight := none } := rfl

/-- Claim C1 (failing evaluation): the auditor's month filter has no upper
bound, so a transaction dated 2026-11-05 — the month after "now"
(2026-10-12) — is counted in monthly_income, where the claim requires it
to contribute nothing. -/
theorem audit_counts_next_month_transaction :
    (audit_finances ⟨2026, 10, 12⟩
      [{ id := none, user_id := 1, amount := 100, type := "income",
         tag := none, category := none,
         date := ⟨2026, 11, 5⟩ }]).monthly_income = 100 := by
  have hI : monthly_income_sum ⟨2026, 10, 12⟩
      [{ id := none, user_id := 1, amount := 100, type := "income",
         tag := none, category := none, date := ⟨2026, 11, 5⟩ }] = 100 := by
    simp [monthly_income_sum, monthly_transactions, Date.leb, month_start]
  simp [audit_finances, hI, round2_hundred]

/-- Claim C6: the strategist's months_to_reach_goal is
`max 1 ⌊goal / target⌋` exactly when the savings target
(`max saving_potential 0`) and the emergency-fund goal
(`3 × monthly_expenses`) are both positive, 0 otherwise; hence it is ≥ 1
exactly when both are positive; and the spec scenario
(expenses 1000, saving potential 500) yields 6. -/
theorem strategist_months_spec (report : Report) (risk_profile : String) :
    ((create_safety_plan report risk_profile).months_to_reach_goal =
      if 0 < max report.saving_potential 0 ∧
          0 < report.monthly_expenses * 3 then
        max 1 ⌊report.monthly_expenses * 3 / max report.saving_potential 0⌋
      else 0) ∧
    (1 ≤ (create_safety_plan report risk_profile).months_to_reach_goal ↔
      (0 < max report.saving_potential 0 ∧
        0 < report.monthly_expenses * 3)) ∧
    (create_safety_plan
      { monthly_income := 0, monthly_expenses := 1000, burn_rate := 0,
        leaks := [], saving_potential := 500 }
      "low").months_to_reach_goal = 6 := by
  refine ⟨?_, ?_, ?_⟩
  · by_cases h : 0 < max report.saving_potential 0 ∧
        0 < report.monthly_expenses * 3
    · simp only [create_safety_plan, if_pos h]
      congr 1
      rw [int_of, if_pos (le_of_lt (div_pos h.2 h.1)), rat_floor_eq]
    · simp only [create_safety_plan, if_neg h]
  · by_cases h : 0 < max report.saving_potential 0 ∧
        0 < report.monthly_expenses * 3
    · simp only [create_safety_plan, if_pos h]
      constructor
      · intro _; exact h
      · intro _; exact le_max_left 1 _
    · simp only [create_safety_plan, if_neg h]
      constructor
      · intro h1; exact absurd h1 (by norm_num)
      · intro hc; exact absurd hc h
  · norm_num [create_safety_plan, int_of, rat_floor_eq, max_def]

/-- Claim C7 (failing evaluation): the catalyst's returned
investable_amount is the 2-decimal rounding of
`max 0 (target − contribution)`, so for a savings target of ₹0.006 (goal
and months 0) the returned value 0.01 differs from the claimed exact
`max 0 (target − contribution)` = 0.006. -/
theorem catalyst_investable_counterexample :
    ¬((propose_portfolio
        { emergency_fund_goal := 0, months_to_reach_goal := 0,
          monthly_savings_target := 3/500, allocation_liquid := 50,
          allocation_locked := 50 } "medium").investable_amount =
      max 0 ((3 : ℚ)/500 -
        emergency_fund_monthly_contribution
          { emergency_fund_goal := 0, months_to_reach_goal := 0,
            monthly_savings_target := 3/500, allocation_liquid := 50,
            allocation_locked := 50 })) := by
  intro h
  have hc : emergency_fund_monthly_contribution
      { emergency_fund_goal := 0, months_to_reach_goal := 0,
        monthly_savings_target := 3/500, allocation_liquid := 50,
        allocation_locked := 50 } = 0 := by
    simp [emergency_fund_monthly_contribution]
  have heq : round2 (3/500) = 1/100 := by
    norm_num [round2, round_half_even, rat_floor_eq, Int.floor_eq_iff]
  simp only [propose_portfolio, hc] at h
  norm_num [max_def, heq] at h

/-- Claim C7 (amended): the catalyst's investable_amount equals the
2-decimal rounding of `max 0 (target − contribution)` where the
contribution is `goal / months` when both months and goal are positive and
0 otherwise; the portfolio is the fixed lookup table keyed by risk profile
(any unknown profile falling to medium); and its percentages always sum to
exactly 100. -/
theorem catalyst_proposal_spec (plan : SafetyNetPlan)
    (risk_profile : String) :
    ((propose_portfolio plan risk_profile).investable_amount =
      round2 (max 0 (plan.monthly_savings_target -
        (if 0 < plan.months_to_reach_goal ∧ 0 < plan.emergency_fund_goal
         then plan.emergency_fund_goal / (plan.months_to_reach_goal : ℚ)
         else 0)))) ∧
    ((propose_portfolio plan risk_profile).portfolio =
      if risk_profile = "low" then
        { equity := 30, debt := 50, gold := 10, cash := 10 }
      else if risk_profile = "high" then
        { equity := 70, debt := 15, gold := 10, cash := 5 }
      else { equity := 55, debt := 30, gold := 10, cash := 5 }) ∧
    ((propose_portfolio plan risk_profile).portfolio.equity +
      (propose_portfolio plan risk_profile).portfolio.debt +
      (propose_portfolio plan risk_profile).portfolio.gold +
      (propose_portfolio plan risk_profile).portfolio.cash = 100) := by
  refine ⟨rfl, rfl, ?_⟩
  by_cases h1 : risk_profile = "low"
  · subst h1
    simp [propose_portfolio]
  · by_cases h2 : risk_profile = "high"
    · subst h2
      simp [propose_portfolio]
    · simp [propose_portfolio, h1, h2]

/-- A non-empty transaction list takes the auditor's computed branch. -/
theorem audit_finances_of_ne_nil (now : Date) (ts : List Transaction)
    (h : ts ≠ []) :
    audit_finances now ts =
      { monthly_income := round2 (monthly_income_sum now ts),
        monthly_expenses := round2 (monthly_expenses_sum now ts),
        burn_rate := round2 (burn_rate_raw now ts),
        leaks := leaks_list now ts,
        saving_potential := round2 (monthly_income_sum now ts -
          monthly_expenses_sum now ts) } := by
  obtain ⟨a, l, rfl⟩ : ∃ a l, ts = a :: l := by
    cases ts with
    | nil => exact absurd rfl h
    | cons a l => exact ⟨a, l, rfl⟩
  rfl

/-- If every amount in the history is a whole number of cents, so is any
filtered monthly sum. -/
theorem filtered_sum_cents (now : Date) (ts : List Transaction)
    (p : Transaction → Bool)
    (h : ∀ t ∈ ts, ∃ n : ℤ, t.amount = (n : ℚ) / 100) :
    ∃ n : ℤ, (((monthly_transactions now ts).filter p).map
      Transaction.amount).sum = (n : ℚ) / 100 := by
  apply sum_cents
  intro x hx
  obtain ⟨t, ht, rfl⟩ := List.mem_map.mp hx
  have ht2 := List.mem_of_mem_filter ht
  rw [monthly_transactions] at ht2
  exact h t (List.mem_of_mem_filter ht2)

/-- Claim C3: the auditor's burn_rate is `round2 (expenses/income × 100)`
when the monthly income is positive, exactly 100 when the income is 0 and
the expenses positive, and exactly 0 when both are 0.  (Income and expenses
here are the current-month sums the source computes before its final
rounding.) -/
theorem audit_burn_rate_spec (now : Date) (ts : List Transaction) :
    (0 < monthly_income_sum now ts →
      (audit_finances now ts).burn_rate =
        round2 (monthly_expenses_sum now ts /
          monthly_income_sum now ts * 100)) ∧
    (monthly_income_sum now ts = 0 → 0 < monthly_expenses_sum now ts →
      (audit_finances now ts).burn_rate = 100) ∧
    (monthly_income_sum now ts = 0 → monthly_expenses_sum now ts = 0 →
      (audit_finances now ts).burn_rate = 0) := by
  cases ts with
  | nil =>
    refine ⟨?_, ?_, fun _ _ => rfl⟩
    · intro h
      simp [monthly_income_sum, monthly_transactions] at h
    · intro _ h
      simp [monthly_expenses_sum, monthly_transactions] at h
  | cons a l =>
    refine ⟨?_, ?_, ?_⟩
    · intro h
      have hbr : burn_rate_raw now (a :: l) =
          monthly_expenses_sum now (a :: l) /
            monthly_income_sum now (a :: l) * 100 := by
        rw [burn_rate_raw, if_pos h]
      rw [audit_finances_of_ne_nil now (a :: l) (by simp), hbr]
    · intro h0 hE
      have hni : ¬(0 < monthly_income_sum now (a :: l)) := by
        rw [h0]; exact lt_irrefl 0
      have hbr : burn_rate_raw now (a :: l) = 100 := by
        rw [burn_rate_raw, if_neg hni, if_pos hE]
      rw [audit_finances_of_ne_nil now (a :: l) (by simp), hbr]
      exact round2_hundred
    · intro h0 hE0
      have hni : ¬(0 < monthly_income_sum now (a :: l)) := by
        rw [h0]; exact lt_irrefl 0
      have hnE : ¬(0 < monthly_expenses_sum now (a :: l)) := by
        rw [hE0]; exact lt_irrefl 0
      have hbr : burn_rate_raw now (a :: l) = 0 := by
        rw [burn_rate_raw, if_neg hni, if_neg hnE]
      rw [audit_finances_of_ne_nil now (a :: l) (by simp), hbr]
      exact round2_zero

/-- Claim C3 witness: a concrete current-month history with income 200 and
expenses 50 exercises the positive-income branch. -/
theorem audit_burn_rate_witness :
    0 < monthly_income_sum spec_now burn_rate_case ∧
    (audit_finances spec_now burn_rate_case).burn_rate =
      round2 (monthly_expenses_sum spec_now burn_rate_case /
        monthly_income_sum spec_now burn_rate_case * 100) := by
  have hI : monthly_income_sum spec_now burn_rate_case = 200 := by
    simp [monthly_income_sum, monthly_transactions, burn_rate_case,
      spec_now, Date.leb, month_start]
  exact ⟨by rw [hI]; norm_num,
    (audit_burn_rate_spec spec_now burn_rate_case).1 (by rw [hI]; norm_num)⟩

/-- Claim C10: any non-empty history dated entirely before the 1st of the
current month audits to exactly the same all-zero report as the empty
history. -/
theorem audit_prior_month_all_zero (now : Date) (ts : List Transaction)
    (hne : ts ≠ [])
    (hall : ∀ t ∈ ts, Date.ltb t.date (month_start now) = true) :
    audit_finances now ts = audit_finances now [] := by
  have hmt : monthly_transactions now ts = [] := by
    rw [monthly_transactions, List.filter_eq_nil_iff]
    intro t ht
    have h := hall t ht
    rw [Date.ltb, Bool.not_eq_true'] at h
    simp [h]
  have hI : monthly_income_sum now ts = 0 := by
    rw [monthly_income_sum, hmt]; rfl
  have hE : monthly_expenses_sum now ts = 0 := by
    rw [monthly_expenses_sum, hmt]; rfl
  have hbr : burn_rate_raw now ts = 0 := by
    rw [burn_rate_raw, hI, hE]; norm_num
  have hlk : leaks_list now ts = [] := by
    rw [leaks_list, hE]; norm_num
  rw [audit_finances_of_ne_nil now ts hne, hI, hE, hbr, hlk]
  simp [audit_finances, round2_zero]

/-- Claim C10 witness: a September-dated expense audited in October gives
the empty-history report. -/
theorem audit_prior_month_witness :
    september_rent ≠ [] ∧
    audit_finances spec_now september_rent =
      audit_finances spec_now [] := by
  refine ⟨by simp [september_rent],
    audit_prior_month_all_zero _ _ (by simp [september_rent]) ?_⟩
  intro t ht
  simp only [september_rent, List.mem_singleton] at ht
  subst ht
  decide

/-- Claim C4 (counterexample): with amounts ₹0.006 (income) and ₹0.004
(expense) the returned report has monthly_income 0.01, monthly_expenses 0
and saving_potential 0, so the saving_potential field is not the exact
difference of the other two returned fields. -/
theorem audit_saving_potential_counterexample :
    ¬((audit_finances spec_now subcent_transactions).saving_potential =
      (audit_finances spec_now subcent_transactions).monthly_income -
        (audit_finances spec_now subcent_transactions).monthly_expenses) := by
  have hI : monthly_income_sum spec_now subcent_transactions = 3/500 := by
    simp [monthly_income_sum, monthly_transactions, subcent_transactions,
      spec_now, Date.leb, month_start]
  have hE : monthly_expenses_sum spec_now subcent_transactions = 1/250 := by
    simp [monthly_expenses_sum, monthly_transactions, subcent_transactions,
      spec_now, Date.leb, month_start]
  intro h
  rw [audit_finances_of_ne_nil _ _ (by simp [subcent_transactions])] at h
  dsimp only at h
  rw [hI, hE] at h
  norm_num [round2, round_half_even, rat_floor_eq, Int.floor_eq_iff] at h

/-- Claim C4 (amended): the saving_potential field is the 2-decimal
rounding of the difference of the pre-rounding monthly sums; when every
amount in the history is a whole number of cents this coincides with the
exact difference `monthly_income − monthly_expenses` of the returned
report's fields. -/
theorem audit_saving_potential_spec (now : Date) (ts : List Transaction) :
    ((audit_finances now ts).saving_potential =
      round2 (monthly_income_sum now ts - monthly_expenses_sum now ts)) ∧
    ((∀ t ∈ ts, ∃ n : ℤ, t.amount = (n : ℚ) / 100) →
      (audit_finances now ts).saving_potential =
        (audit_finances now ts).monthly_income -
          (audit_finances now ts).monthly_expenses) := by
  cases ts with
  | nil =>
    constructor
    · simp [audit_finances, monthly_income_sum, monthly_expenses_sum,
        monthly_transactions, round2_zero]
    · intro _
      simp [audit_finances]
  | cons a l =>
    rw [audit_finances_of_ne_nil now (a :: l) (by simp)]
    constructor
    · rfl
    · intro h
      obtain ⟨nI, hI⟩ := filtered_sum_cents now (a :: l)
        (fun t => decide (t.type = "income")) h
      obtain ⟨nE, hE⟩ := filtered_sum_cents now (a :: l)
        (fun t => decide (t.type = "expense")) h
      have hI2 : monthly_income_sum now (a :: l) = (nI : ℚ) / 100 := hI
      have hE2 : monthly_expenses_sum now (a :: l) = (nE : ℚ) / 100 := hE
      dsimp only
      rw [hI2, hE2]
      have hsub : (nI : ℚ) / 100 - (nE : ℚ) / 100 =
          ((nI - nE : ℤ) : ℚ) / 100 := by
        push_cast
        ring
      rw [hsub, round2_cents, round2_cents, round2_cents, hsub]

/-- Claim C4 witness: the whole-rupee grocery scenario satisfies the
whole-cents hypothesis, and there the saving_potential field is exactly
the difference of the returned income and expense fields. -/
theorem audit_saving_potential_witness :
    (audit_finances spec_now grocery_scenario).saving_potential =
      (audit_finances spec_now grocery_scenario).monthly_income -
        (audit_finances spec_now grocery_scenario).monthly_expenses := by
  apply (audit_saving_potential_spec spec_now grocery_scenario).2
  intro t ht
  simp only [grocery_scenario, List.mem_cons, List.mem_singleton,
    List.not_mem_nil, or_false] at ht
  rcases ht with rfl | rfl
  · exact ⟨500000, by norm_num⟩
  · exact ⟨200000, by norm_num⟩

/-- Claim C5: with positive monthly expenses, the leaks list contains
exactly the (non-empty) tags whose current-month expense total exceeds 15%
of the monthly expenses (a missing or empty tag never appears); with zero
monthly expenses the list is empty; and the spec's worked scenario
(income 5000, expense 2000 tagged "groceries") yields exactly
`["groceries"]`. -/
theorem audit_leaks_spec (now : Date) (ts : List Transaction) :
    (0 < monthly_expenses_sum now ts →
      ∀ s : String, (s ∈ (audit_finances now ts).leaks ↔
        (s ≠ "" ∧ monthly_expenses_sum now ts * (15/100) <
          tag_total now ts s))) ∧
    (monthly_expenses_sum now ts = 0 →
      (audit_finances now ts).leaks = []) ∧
    (audit_finances spec_now grocery_scenario).leaks = ["groceries"] := by
  refine ⟨?_, ?_, ?_⟩
  · intro hE s
    have hne : ts ≠ [] := by
      intro h0
      rw [h0] at hE
      simp [monthly_expenses_sum, monthly_transactions] at hE
    rw [audit_finances_of_ne_nil now ts hne]
    dsimp only
    rw [leaks_list, if_pos hE, List.mem_filter, mem_leak_tag_keys]
    constructor
    · rintro ⟨⟨t, ht, hty, htag, hs⟩, hd⟩
      exact ⟨hs, of_decide_eq_true hd⟩
    · rintro ⟨hs, hthr⟩
      have hpos : 0 < tag_total now ts s :=
        lt_trans (mul_pos hE (by norm_num)) hthr
      obtain ⟨t, ht, hty, htag⟩ := tag_total_pos_exists now ts s hpos
      exact ⟨⟨t, ht, hty, htag, hs⟩, decide_eq_true hthr⟩
  · intro hE0
    cases ts with
    | nil => rfl
    | cons a l =>
      rw [audit_finances_of_ne_nil now (a :: l) (by simp)]
      dsimp only
      rw [leaks_list, if_neg (by rw [hE0]; exact lt_irrefl 0)]
  · have hE : monthly_expenses_sum spec_now grocery_scenario = 2000 := by
      simp [monthly_expenses_sum, monthly_transactions, grocery_scenario,
        spec_now, Date.leb, month_start]
    have hkeys : leak_tag_keys spec_now grocery_scenario = ["groceries"] := by
      simp [leak_tag_keys, monthly_transactions, grocery_scenario, spec_now,
        Date.leb, month_start, dedupKeys, tag_truthy]
    have htot : tag_total spec_now grocery_scenario "groceries" = 2000 := by
      simp [tag_total, monthly_transactions, grocery_scenario, spec_now,
        Date.leb, month_start]
    rw [audit_finances_of_ne_nil _ _ (by simp [grocery_scenario])]
    dsimp only
    rw [leaks_list, if_pos (by rw [hE]; norm_num), hkeys]
    simp only [List.filter_cons, List.filter_nil, hE, htot]
    norm_num

/-- Claim C5 witness: the worked scenario has positive monthly expenses
and its "groceries" tag satisfies the membership characterisation. -/
theorem audit_leaks_witness :
    0 < monthly_expenses_sum spec_now grocery_scenario ∧
    ("groceries" ∈ (audit_finances spec_now grocery_scenario).leaks ↔
      ("groceries" ≠ "" ∧ monthly_expenses_sum spec_now grocery_scenario *
        (15/100) < tag_total spec_now grocery_scenario "groceries")) := by
  have hE : monthly_expenses_sum spec_now grocery_scenario = 2000 := by
    simp [monthly_expenses_sum, monthly_transactions, grocery_scenario,
      spec_now, Date.leb, month_start]
  exact ⟨by rw [hE]; norm_num,
    (audit_leaks_spec spec_now grocery_scenario).1
      (by rw [hE]; norm_num) "groceries"⟩

/-- Claim C8: for a positive investable amount every selected fund's
minimum investment fits within it, and at amount 0 the minimum-investment
filter admits the whole catalog. -/
theorem fund_selection_spec (risk_profile : String) (amount : ℚ) :
    (0 < amount → ∀ f ∈ get_funds_by_risk_profile risk_profile amount,
      f.min_investment ≤ amount) ∧
    available_funds 0 = FUNDS_DATABASE := by
  constructor
  · intro hpos f hf
    simp only [get_funds_by_risk_profile] at hf
    have hf2 := List.take_subset 6 _ hf
    have havail : f ∈ available_funds amount := by
      split_ifs at hf2 with h1 h2
      · rcases List.mem_append.mp hf2 with hx | hx
        · exact List.mem_of_mem_filter hx
        · exact List.mem_of_mem_filter (List.take_subset 1 _ hx)
      · rcases List.mem_append.mp hf2 with hx | hx
        · exact List.mem_of_mem_filter hx
        · exact List.mem_of_mem_filter (List.take_subset 1 _ hx)
      · exact hf2
    simp only [available_funds] at havail
    have hcond := (List.mem_filter.mp havail).2
    rcases of_decide_eq_true hcond with h0 | hle
    · exact absurd h0 (ne_of_gt hpos)
    · exact hle
  · simp only [available_funds]
    rw [List.filter_eq_self]
    intro a _
    exact decide_eq_true (Or.inl trivial)

/-- Claim C8 witness: at amount 6000 under the "low" profile every
selected fund's minimum investment fits. -/
theorem fund_selection_witness :
    (0 : ℚ) < 6000 ∧
    (get_funds_by_risk_profile "low" 6000).all
      (fun f => decide (f.min_investment ≤ 6000)) = true := by
  have h := (fund_selection_spec "low" 6000).1 (by norm_num)
  refine ⟨by norm_num, ?_⟩
  rw [List.all_eq_true]
  intro f hf
  exact decide_eq_true (h f hf)

/-- The assembled coaching response never carries more than two fund
suggestions. -/
theorem coaching_response_length (r : CoachingResult) (rp : String)
    (ci ce sp : ℚ) (tk : Bool) :
    (coaching_response r rp ci ce sp tk).fund_suggestions.length ≤ 2 := by
  simp only [coaching_response]
  split_ifs <;>
    simp only [format_fund_suggestions, List.length_map, List.length_take,
      List.length_nil] <;>
    omega

/-- The assembled coaching response carries no fund suggestion unless the
collaborator asked to intervene and the claimed investable amount —
`max (income − expense, 0 when income ≤ 0) (recent same-tag spend)` —
reaches 1000. -/
theorem coaching_response_guard (r : CoachingResult) (rp : String)
    (ci ce sp : ℚ) (tk : Bool)
    (h : ¬(r.should_intervene = true ∧
      1000 ≤ max (if 0 < ci then ci - ce else 0) sp)) :
    (coaching_response r rp ci ce sp tk).fund_suggestions = [] := by
  by_cases hsi : r.should_intervene = true
  · have hinv : ¬(1000 ≤ (if 0 < sp ∧ tk = true then
        max (if 0 < ci then max 0 (ci - ce) else 0) sp
      else (if 0 < ci then max 0 (ci - ce) else 0))) := by
      intro hinv
      apply h
      refine ⟨hsi, ?_⟩
      by_cases hc : 0 < sp ∧ tk = true
      · rw [if_pos hc] at hinv
        rcases le_max_iff.mp hinv with hv | hv
        · by_cases hi : 0 < ci
          · rw [if_pos hi] at hv
            rcases le_max_iff.mp hv with h0 | hd
            · norm_num at h0
            · exact le_max_of_le_left (by rw [if_pos hi]; exact hd)
          · rw [if_neg hi] at hv
            norm_num at hv
        · exact le_max_of_le_right hv
      · rw [if_neg hc] at hinv
        by_cases hi : 0 < ci
        · rw [if_pos hi] at hinv
          rcases le_max_iff.mp hinv with h0 | hd
          · norm_num at h0
          · exact le_max_of_le_left (by rw [if_pos hi]; exact hd)
        · rw [if_neg hi] at hinv
          norm_num at hinv
    simp only [coaching_response]
    rw [if_pos hsi, if_neg hinv]
  · simp only [coaching_response]
    rw [if_neg hsi]

/-- Claim C2: whatever the external collaborators return, the coach's fund
suggestion list has at most two entries, and it is empty unless the
returned should_intervene is true and the derived investable amount — the
maximum of (income − expense, taken as 0 when income ≤ 0) and the recent
7-day same-tag spend — is at least 1000. -/
theorem coach_guardrails (gemini_result : Option CoachingResult)
    (ollama_result : Except String CoachingResult)
    (transaction_data : TransactionData) (user : UserProfile)
    (all_transactions : List CoachTxn) (week_ago : Date) :
    ((analyze_and_coach gemini_result ollama_result transaction_data user
      all_transactions week_ago).fund_suggestions.length ≤ 2) ∧
    (¬((analyze_and_coach gemini_result ollama_result transaction_data user
        all_transactions week_ago).should_intervene = true ∧
      1000 ≤ max (if 0 < transaction_data.income then
          transaction_data.income - transaction_data.expense else 0)
        (recent_tag_spending (all_transactions.take 20)
          (current_tag_of transaction_data.tags) week_ago)) →
      (analyze_and_coach gemini_result ollama_result transaction_data user
        all_transactions week_ago).fund_suggestions = []) := by
  cases gemini_result with
  | some r =>
    exact ⟨coaching_response_length r _ _ _ _ _,
      fun h => coaching_response_guard r _ _ _ _ _ h⟩
  | none =>
    cases ollama_result with
    | ok r =>
      exact ⟨coaching_response_length r _ _ _ _ _,
        fun h => coaching_response_guard r _ _ _ _ _ h⟩
    | error e =>
      exact ⟨Nat.zero_le 2, fun _ => rfl⟩

/-- Claim C2 witness: the concrete double-failure input returns at most
two (here zero) suggestions and an empty list under the guard. -/
theorem coach_guardrails_witness :
    ((analyze_and_coach none (Except.error "unreachable")
      { income := 0, expense := 0, tags := [] } { risk_profile := none }
      [] ⟨2026, 10, 5⟩).fund_suggestions.length ≤ 2) ∧
    ((analyze_and_coach none (Except.error "unreachable")
      { income := 0, expense := 0, tags := [] } { risk_profile := none }
      [] ⟨2026, 10, 5⟩).fund_suggestions = []) := by
  refine ⟨(coach_guardrails none (Except.error "unreachable")
      { income := 0, expense := 0, tags := [] } { risk_profile := none }
      [] ⟨2026, 10, 5⟩).1,
    (coach_guardrails none (Except.error "unreachable")
      { income := 0, expense := 0, tags := [] } { risk_profile := none }
      [] ⟨2026, 10, 5⟩).2 ?_⟩
  rintro ⟨hsi, -⟩
  exact Bool.false_ne_true hsi
